import Mathlib

/-!
Verification of the FirebaseAPI request-admission and identity-gating
pipeline against its design specification.

The definitions below are a shallow embedding of the Python source:

* `app/api/middleware/rate_limiter.py` — token-bucket rate limiter
  (`RateLimiter._get_tokens`, `RateLimiter._refill_bucket`,
  `RateLimiter.is_allowed`).  Python floats are modelled as rationals.
* `app/api/security/jwt.py` — `create_access_token`, `jwt.decode`
  (python-jose, HS256, zero leeway), `get_current_user`.
* `app/api/models/schemas.py` — the pydantic `User` model.
* `app/api/security/rbac.py` — `get_current_admin_user`.
* `app/api/middleware/auth.py` — `AuthMiddleware.dispatch`.
* `app/api/main.py` — the middleware registration of the application.
* `app/services/firebase_client/async_firebase.py` — `AsyncFirebase.read`,
  `AsyncFirebase.write`, `AsyncFirebase.ensure_default_entry`, and the
  lazy initialization sequence `AsyncFirebase._initialize_firebase`.

Time is modelled by explicit rational (rate limiter) or integer (JWT
expiry, seconds) clock values passed to each operation, exactly where the
source reads `time.time()` or `datetime.utcnow()`.
-/

namespace FirebaseAPI

/-! ## Token bucket (app/api/middleware/rate_limiter.py) -/

/-- One per-key bucket entry: `self.token_bucket[key]` is the dict
`\x7b"tokens": float, "last_refill": float\x7d`.  Floats are modelled as `ℚ`. -/
structure Bucket where
  tokens : ℚ
  lastRefill : ℚ
  deriving Repr, DecidableEq

/-- `RateLimiter._get_tokens`: return the bucket for a key, creating
`\x7b"tokens": float(self.rate), "last_refill": time.time()\x7d` when the key has
not been seen before.  `none` is an absent key; `now` is the `time.time()`
value read at creation. -/
def getTokens (rate : ℚ) (bucket : Option Bucket) (now : ℚ) : Bucket :=
  match bucket with
  | none => { tokens := rate, lastRefill := now }
  | some b => b

/-- The refill increment `new_tokens = time_passed * (self.rate / self.per)`
computed by `RateLimiter._refill_bucket`. -/
def refillAmount (rate per elapsed : ℚ) : ℚ :=
  elapsed * (rate / per)

/-- `RateLimiter._refill_bucket` acting on an existing bucket:
`bucket["tokens"] = min(self.rate, bucket["tokens"] + new_tokens)` and
`bucket["last_refill"] = now`. -/
def refillBucket (rate per : ℚ) (b : Bucket) (now : ℚ) : Bucket :=
  { tokens := min rate (b.tokens + refillAmount rate per (now - b.lastRefill)),
    lastRefill := now }

/-- `RateLimiter.is_allowed(key)`: `_refill_bucket` (which first creates the
bucket through `_get_tokens` if absent), then consume one token when
`bucket["tokens"] >= 1`.  Returns the boolean result and the bucket state
left in `self.token_bucket[key]`. -/
def isAllowedStep (rate per : ℚ) (bucket : Option Bucket) (now : ℚ) :
    Bool × Bucket :=
  let b := refillBucket rate per (getTokens rate bucket now) now
  if 1 ≤ b.tokens then (true, { b with tokens := b.tokens - 1 })
  else (false, b)

/-- A burst of `n` consecutive `is_allowed` calls for one key, all observing
the same clock value `now` (instantaneous burst).  Returns the list of
results in call order. -/
def runCalls (rate per now : ℚ) : ℕ → Option Bucket → List Bool
  | 0, _ => []
  | n + 1, bucket =>
    let r := isAllowedStep rate per bucket now
    r.1 :: runCalls rate per now n (some r.2)

/-- A sequence of `is_allowed` calls for one key at the listed clock
values, returning the final bucket state. -/
def runTimed (rate per : ℚ) : List ℚ → Bucket → Bucket
  | [], b => b
  | t :: rest, b => runTimed rate per rest (isAllowedStep rate per (some b) t).2

/-! ## Bearer tokens (app/api/security/jwt.py) -/

/-- The claim payload supplied to `create_access_token` and read back by
`payload.get("sub")` / `payload.get("user_id")` in `get_current_user` and
`AuthMiddleware.dispatch`.  Absent dict keys are `none`. -/
structure TokenData where
  sub : Option String
  userId : Option String
  deriving Repr, DecidableEq

/-- A signed token as produced by `jwt.encode(to_encode, SECRET_KEY, HS256)`:
the payload, the absolute expiry timestamp `exp` (seconds), and the secret
the signature was computed with.  The signature is modelled by recording the
signing secret: verification with secret `s` succeeds exactly when the token
was signed with `s`. -/
structure Token where
  data : TokenData
  exp : ℤ
  signedWith : String
  deriving Repr, DecidableEq

/-- `ACCESS_TOKEN_EXPIRE_MINUTES = 10` expressed in seconds. -/
def accessTokenDefaultTtl : ℤ := 10 * 60

/-- `create_access_token(data, expires_delta)`: copies the payload and sets
`exp = datetime.utcnow() + expires_delta` (or the 10-minute default when
`expires_delta` is `None`), then signs with the process secret.  `now` is
the `datetime.utcnow()` value in seconds. -/
def create_access_token (data : TokenData) (now : ℤ)
    (expiresDelta : Option ℤ) (secret : String) : Token :=
  { data := data,
    exp := now + expiresDelta.getD accessTokenDefaultTtl,
    signedWith := secret }

/-- `jwt.decode(token, secret, algorithms=[HS256])` of python-jose with the
default zero leeway: fails on a signature mismatch, fails with
`ExpiredSignatureError` when `exp < now`, and otherwise returns the payload
(including `exp`). -/
def jwtDecode (t : Token) (secret : String) (now : ℤ) :
    Except Unit (TokenData × ℤ) :=
  if t.signedWith = secret then
    if t.exp < now then .error () else .ok (t.data, t.exp)
  else .error ()

/-! ## The pydantic `User` model (app/api/models/schemas.py) -/

/-- The declared fields of `class User(BaseModel)`: `id`, `email`,
`username`, `disabled: bool = False`, `is_admin: bool = False`. -/
structure User where
  id : String
  email : String
  username : String
  disabled : Bool := false
  is_admin : Bool := false
  deriving Repr, DecidableEq

/-- The constructor call `User(id=…, email=…, username=…, is_active=…)` made
by `get_current_user` and `authenticate_user`.  `is_active` is not a declared
field of the `User` model and pydantic v2 ignores unknown keyword arguments
by default, so the declared defaults `disabled = False` and
`is_admin = False` apply regardless of the `is_active` argument. -/
def userFromCall (id email username : String) (is_active : Bool) : User :=
  { id := id, email := email, username := username }

/-- One record of the `users` subtree of the store, as a Python dict read
through `.get`: every field may be absent. -/
structure UserRecord where
  username : Option String
  email : Option String
  hashedPassword : Option String
  disabled : Option Bool
  isAdmin : Option Bool
  deriving Repr, DecidableEq

/-- The configuration values consulted by `get_current_user` for the
reserved `"admin"` subject (`CONFIG.ADMIN_EMAIL`, `CONFIG.ADMIN_USERNAME`,
`CONFIG.ADMIN_DISABLED`). -/
structure AdminConfig where
  adminEmail : String
  adminUsername : String
  adminDisabled : Bool
  deriving Repr, DecidableEq

/-- Outcome of `get_current_user`: either a resolved `User` or the
`credentials_exception` (HTTP 401, `WWW-Authenticate: Bearer`). -/
inductive AuthOutcome where
  | ok (u : User)
  | unauthenticated
  deriving Repr, DecidableEq

/-- `get_current_user(token)`:
decode the token (any `JWTError` yields the 401 `credentials_exception`);
reject when `sub` or `user_id` is absent;
for `user_id == "admin"` synthesize the user from configuration without a
store lookup; otherwise scan the `users` subtree for the first record whose
`email` field equals `sub`, rejecting when none matches.  The `users`
subtree is the dict `users_data` in iteration order. -/
def get_current_user (t : Token) (secret : String) (now : ℤ)
    (cfg : AdminConfig) (users : List (String × UserRecord)) : AuthOutcome :=
  match jwtDecode t secret now with
  | .error _ => .unauthenticated
  | .ok (payload, _) =>
    match payload.sub, payload.userId with
    | some email, some userId =>
      if userId = "admin" then
        .ok (userFromCall "admin" cfg.adminEmail cfg.adminUsername
          (!cfg.adminDisabled))
      else
        match users.find? (fun p => p.2.email == some email) with
        | none => .unauthenticated
        | some (_, record) =>
          .ok (userFromCall userId email (record.username.getD "") true)
    | _, _ => .unauthenticated

/-! ## RBAC (app/api/security/rbac.py) -/

/-- Outcome of `get_current_admin_user`: the user, or the HTTP 403
`HTTPException` ("Not enough permissions. Admin privileges required."). -/
inductive AdminOutcome where
  | ok (u : User)
  | forbidden
  deriving Repr, DecidableEq

/-- `get_current_admin_user(current_user)`: raise 403 when
`not current_user.is_admin`, otherwise return `current_user` unchanged. -/
def get_current_admin_user (currentUser : User) : AdminOutcome :=
  if !currentUser.is_admin then .forbidden else .ok currentUser

/-! ## Authentication middleware (app/api/middleware/auth.py) -/

/-- An HTTP-style response as built by the middleware: status code, the
JSON body as a key/value list, and the response headers. -/
structure Response where
  status : ℕ
  body : List (String × String)
  headers : List (String × String)
  deriving Repr, DecidableEq

/-- The uniform 401 rejection built by `AuthMiddleware.dispatch` on every
failure path: status `HTTP_401_UNAUTHORIZED`, a fixed body, and the
`WWW-Authenticate: Bearer` challenge header. -/
def unauthenticatedResponse : Response :=
  { status := 401,
    body := [("status", "error"),
             ("message", "Not authenticated"),
             ("detail",
              "Authentication credentials were not provided or are invalid")],
    headers := [("WWW-Authenticate", "Bearer")] }

/-- The local `public_paths` list inside `AuthMiddleware.dispatch`. -/
def dispatchPublicPaths : List String :=
  ["/api/v1/auth/login",
   "/api/v1/auth/token",
   "/api/v1/auth/register",
   "/api/v1/auth/forgot-password",
   "/api/v1/health",
   "/docs",
   "/redoc",
   "/openapi.json"]

/-- Python `s.startswith(p)`, expressed on the character lists of the two
strings. -/
def pyStartsWith (s p : String) : Bool :=
  p.data.isPrefixOf s.data

/-- `is_public_route = path in public_paths or any(path.startswith(p) for p
in ["/static/", "/public/"])`. -/
def isPublicRoute (path : String) : Bool :=
  dispatchPublicPaths.contains path
    || pyStartsWith path "/static/" || pyStartsWith path "/public/"

/-- The `Authorization` header of a request, as consumed by
`AuthMiddleware.dispatch`: either a string that fails
`auth_header.startswith("Bearer ")` (malformed), or `"Bearer <token>"`
carrying a token. -/
inductive AuthHeader where
  | malformed (raw : String)
  | bearer (t : Token)
  deriving Repr, DecidableEq

/-- `AuthMiddleware.dispatch`: public routes pass straight through
(`none`, meaning `call_next` is invoked with no identity attached).
Otherwise: a missing or malformed header yields the uniform 401 response;
a bearer token is decoded and, on any exception (signature mismatch,
expiry, or the `HTTPException` raised when `sub` is absent — all caught by
the blanket `except Exception`), the identical 401 response is returned;
on success `request.state.user` is set and the request proceeds. -/
def authDispatch (secret : String) (now : ℤ) (path : String)
    (auth : Option AuthHeader) : Option Response :=
  if isPublicRoute path then none
  else
    match auth with
    | none => some unauthenticatedResponse
    | some (.malformed _) => some unauthenticatedResponse
    | some (.bearer t) =>
      match jwtDecode t secret now with
      | .error _ => some unauthenticatedResponse
      | .ok (payload, _) =>
        match payload.sub with
        | none => some unauthenticatedResponse
        | some _ => none

/-! ## Middleware registration (app/api/main.py) -/

/-- The middleware classes of the application.  `main.py` registers the
CORS middleware, `RateLimitMiddleware`, and the `log_requests`
`@app.middleware("http")` function; the `app.add_middleware(AuthMiddleware)`
line is commented out ("Comment out the authentication middleware for
testing"). -/
inductive MW where
  | cors
  | rateLimitMW
  | logRequests
  | authMW
  deriving Repr, DecidableEq

/-- The middleware stack actually registered in `app/api/main.py`, in
execution order (outermost first; Starlette runs middleware in reverse
registration order).  `MW.authMW` is absent: its registration on line 83 of
`main.py` is commented out. -/
def registeredMiddlewares : List MW := [.logRequests, .rateLimitMW, .cors]

/-- The fixed 429 rejection built by `RateLimitMiddleware.dispatch` when
`is_allowed` returns false. -/
def rateLimitResponse : Response :=
  { status := 429,
    body := [("detail", "Rate limit exceeded. Please try again later.")],
    headers := [] }

/-- One middleware applied to a request: `none` means the request is passed
to `call_next`, `some r` means the middleware short-circuits with response
`r`.  `rlAllowed` is the result of the rate limiter for the request key;
CORS and the logging middleware forward every request. -/
def applyMW (secret : String) (now : ℤ) (rlAllowed : Bool) (path : String)
    (auth : Option AuthHeader) : MW → Option Response
  | .cors => none
  | .logRequests => none
  | .rateLimitMW => if rlAllowed then none else some rateLimitResponse
  | .authMW => authDispatch secret now path auth

/-- Run a middleware stack over a request, outermost middleware first:
`some r` when a middleware short-circuits with response `r`, `none` when
the request passes every middleware and goes on to route resolution. -/
def runMiddlewares (secret : String) (now : ℤ) (rlAllowed : Bool)
    (path : String) (auth : Option AuthHeader) : List MW → Option Response
  | [] => none
  | m :: rest =>
    match applyMW secret now rlAllowed path auth m with
    | some r => some r
    | none => runMiddlewares secret now rlAllowed path auth rest

/-! ## Route table and FastAPI dependency resolution

Authentication in this application also happens at the route level:
every route of `app/api/routes/data.py` and `GET /api/v1/auth/user/me`
declare `Depends(get_current_active_user)` (and `GET /api/v1/data/users`
declares `Depends(get_current_admin_user)`), which chains through
`oauth2_scheme = OAuth2PasswordBearer(tokenUrl="token")` with the default
`auto_error=True`: FastAPI rejects a request without a bearer
`Authorization` header with HTTP 401 and `WWW-Authenticate: Bearer`
before the handler body runs.  The remaining routes of
`app/api/routes/auth.py` and the health check declare no authentication
dependency at all. -/

/-- The authentication dependency a route declares: none,
`Depends(get_current_active_user)`, or `Depends(get_current_admin_user)`. -/
inductive AuthDep where
  | noAuth
  | activeUser
  | adminUser
  deriving Repr, DecidableEq

/-- The application's route table (routers mounted in `app/api/main.py`
under `/api/v1/auth` and `/api/v1/data`, plus the health check and the
FastAPI documentation routes), mapping a request path to the declared
authentication dependency; `none` is an unknown path (404).  The
parameterized data routes (`/users/\x7buser_id\x7d`, `/\x7bcollection\x7d`, …) are
modelled by their common prefix, after the more specific literal
`/api/v1/data/users` route, matching FastAPI's registration order in
`app/api/routes/data.py`. -/
def routeAuthDep (path : String) : Option AuthDep :=
  if ["/api/v1/auth/login",
      "/api/v1/auth/token",
      "/api/v1/auth/login-json",
      "/api/v1/auth/register",
      "/api/v1/auth/forgot-password",
      "/api/v1/auth/reset-password",
      "/api/v1/auth/check-admin",
      "/api/v1/auth/test",
      "/api/v1/auth/test-firebase",
      "/api/v1/health",
      "/docs", "/redoc", "/openapi.json"].contains path then
    some .noAuth
  else if path = "/api/v1/auth/user/me" then some .activeUser
  else if path = "/api/v1/data/users" then some .adminUser
  else if pyStartsWith path "/api/v1/data/" then some .activeUser
  else none

/-- The 401 raised by `OAuth2PasswordBearer` with `auto_error=True` when
the request carries no bearer `Authorization` header. -/
def oauth2NotAuthenticatedResponse : Response :=
  { status := 401,
    body := [("detail", "Not authenticated")],
    headers := [("WWW-Authenticate", "Bearer")] }

/-- The `credentials_exception` of `get_current_user` rendered as a
response. -/
def credentialsExceptionResponse : Response :=
  { status := 401,
    body := [("detail", "Could not validate credentials")],
    headers := [("WWW-Authenticate", "Bearer")] }

/-- The 400 raised by `get_current_active_user` for a disabled user. -/
def inactiveUserResponse : Response :=
  { status := 400,
    body := [("detail", "Inactive user")],
    headers := [] }

/-- The 403 raised by `get_current_admin_user`. -/
def forbiddenResponse : Response :=
  { status := 403,
    body := [("detail", "Not enough permissions. Admin privileges required.")],
    headers := [] }

/-- FastAPI resolving a route's authentication dependency chain before the
handler body runs: `none` means the chain succeeded (or the route declares
no dependency) and the handler runs; `some r` is the rejection response.
For a dependency-protected route, a missing header or one carrying no
bearer credential is rejected by `OAuth2PasswordBearer` (`.malformed`
covers every header rejected by both the middleware's
`startswith("Bearer ")` test and the oauth2 scheme check); then
`get_current_user` runs, then `get_current_active_user`'s disabled check,
then — for admin routes — `get_current_admin_user`. -/
def resolveDependency (dep : AuthDep) (auth : Option AuthHeader)
    (secret : String) (now : ℤ) (cfg : AdminConfig)
    (users : List (String × UserRecord)) : Option Response :=
  match dep with
  | .noAuth => none
  | .activeUser | .adminUser =>
    match auth with
    | none => some oauth2NotAuthenticatedResponse
    | some (.malformed _) => some oauth2NotAuthenticatedResponse
    | some (.bearer t) =>
      match get_current_user t secret now cfg users with
      | .unauthenticated => some credentialsExceptionResponse
      | .ok u =>
        if u.disabled then some inactiveUserResponse
        else
          match dep with
          | .adminUser =>
            match get_current_admin_user u with
            | .forbidden => some forbiddenResponse
            | .ok _ => none
          | _ => none

/-- The 404 for a path matching no route. -/
def notFoundResponse : Response :=
  { status := 404,
    body := [("detail", "Not Found")],
    headers := [] }

/-- Outcome of processing a request: either some layer responded, or the
application handler body runs. -/
inductive PipelineOutcome where
  | response (r : Response)
  | reachesHandler
  deriving Repr, DecidableEq

/-- The whole request pipeline of the application as built in
`app/api/main.py`: the registered middleware stack (which contains no
authentication gate — see `registeredMiddlewares`), then route lookup,
then FastAPI's resolution of the route's declared authentication
dependencies, then the handler body. -/
def handleRequest (secret : String) (now : ℤ) (rlAllowed : Bool)
    (path : String) (auth : Option AuthHeader) (cfg : AdminConfig)
    (users : List (String × UserRecord)) : PipelineOutcome :=
  match runMiddlewares secret now rlAllowed path auth
      registeredMiddlewares with
  | some r => .response r
  | none =>
    match routeAuthDep path with
    | none => .response notFoundResponse
    | some dep =>
      match resolveDependency dep auth secret now cfg users with
      | some r => .response r
      | none => .reachesHandler

/-! ## Store client (app/services/firebase_client/async_firebase.py) -/

/-- A JSON-compatible value stored in the remote tree, as handled by the
Python client (`Dict[str, Any]` and the scalar shapes Firebase can hold). -/
inductive JsonVal where
  | obj (fields : List (String × JsonVal))
  | str (s : String)
  | num (n : ℤ)
  | bool (b : Bool)
  | null

/-- Python truthiness of a `JsonVal`, as tested by `if not data` in
`ensure_default_entry` and by `if not users_data` in the JWT module: empty
dict, empty string, zero, `False` and `None` are falsy. -/
def JsonVal.isTruthy : JsonVal → Bool
  | .obj fields => !fields.isEmpty
  | .str s => !s.isEmpty
  | .num n => n != 0
  | .bool b => b
  | .null => false

/-- The remote tree, addressed by full slash-separated path: `none` means
no data exists at the path (`ref.get()` returns `None`). -/
def Store : Type := String → Option JsonVal

/-- Writing a value at a path in the tree model (`ref.set(data)`). -/
def Store.setAt (st : Store) (path : String) (v : JsonVal) : Store :=
  fun p => if p = path then some v else st p

/-- `AsyncFirebase.read(path)`: inside a blanket `try`, get the data at the
path; `None` becomes `\x7b\x7d`; any exception (initialization failure or
transport error, modelled by `healthy = false`) is logged and swallowed,
also returning `\x7b\x7d`.  The function is total: no exception propagates. -/
def read (st : Store) (healthy : Bool) (path : String) : JsonVal :=
  if healthy then
    match st path with
    | none => .obj []
    | some v => v
  else .obj []

/-- `AsyncFirebase.write(path, data)`: `ref.set(data)` and `True` on
success; on any exception (`healthy = false`) the store is unchanged and
`False` is returned. -/
def write (st : Store) (healthy : Bool) (path : String) (v : JsonVal) :
    Bool × Store :=
  if healthy then (true, st.setAt path v) else (false, st)

/-- `AsyncFirebase.ensure_default_entry(path, default_data)`: read the
path; when the result is falsy (`if not data`), write the default and
return the write result; otherwise return `True` without writing.  The
third component counts the `write` calls performed (0 or 1). -/
def ensure_default_entry (st : Store) (healthy : Bool) (path : String)
    (defaultData : JsonVal) : Bool × Store × ℕ :=
  let data := read st healthy path
  if !data.isTruthy then
    let r := write st healthy path defaultData
    (r.1, r.2, 1)
  else (true, st, 0)

/-! ## Lazy initialization of the store client

`AsyncFirebase._initialize_firebase` runs
`if not firebase_admin._apps and not self._initialized:` and, inside the
guard, loads credentials and calls `firebase_admin.initialize_app` before
setting `self._initialized = True`.  Under the cooperative scheduling model
of the application (a single asyncio event loop), this whole body is one
atomic segment: every `await` inside it awaits a coroutine whose body is
synchronous (the `AsyncLogger` methods, `_load_credentials`), and awaiting
such a coroutine runs it to completion without yielding to the event loop;
the first genuine suspension point (`asyncio.to_thread`) comes only after
`_initialize_firebase` returns inside `get_reference`.  A set of concurrent
first-use tasks therefore executes the guarded segment in some sequential
order, which we model as a schedule of atomic steps. -/

/-- Global initialization state: `apps` counts executed
`firebase_admin.initialize_app` calls (the connection-initialization
side-effect counter), `initialized` is `self._initialized`. -/
structure FbState where
  apps : ℕ
  initialized : Bool
  deriving Repr, DecidableEq

/-- One task executing the body of `_initialize_firebase` as an atomic
segment: when `firebase_admin._apps` is empty and `_initialized` is false,
establish the connection (increment `apps`) and set the flag; otherwise do
nothing. -/
def initFirebaseStep (s : FbState) : FbState :=
  if s.apps = 0 && !s.initialized then
    { apps := s.apps + 1, initialized := true }
  else s

/-- Run a schedule of concurrent first-use tasks: each schedule entry is
one task executing its atomic `_initialize_firebase` segment, in the order
the event loop happens to run them. -/
def runFirstUse : List ℕ → FbState → FbState
  | [], s => s
  | _ :: rest, s => runFirstUse rest (initFirebaseStep s)

/-! ## Theorems -/

/-- C1: the claim requires every request to a non-allow-listed path that
lacks a valid bearer credential to be rejected with an HTTP 401 before
any application handler runs.  The application does not guarantee this
for every such path: the `AuthMiddleware` registration in
`app/api/main.py` is commented out, so the only remaining authentication
layer is the per-route dependency chain — and the route
`/api/v1/auth/check-admin` (likewise `/api/v1/auth/test` and
`/api/v1/auth/test-firebase`) declares no authentication dependency, is
on neither the specification's public allow-list nor the gate's own
allow-list, and its handler body runs on a request with no
`Authorization` header.  The theorem records: the auth middleware is not
registered; the path is not allow-listed by the gate; the route declares
no dependency; the credential-less request reaches the handler; the gate,
had it been registered, would have rejected it with the uniform 401; and,
by contrast, a dependency-protected data route is rejected 401 by
`OAuth2PasswordBearer` resolution before its handler, which is why the
claim holds on the data routes but not on the dependency-free ones. -/
theorem auth_gate_not_enforced :
    MW.authMW ∉ registeredMiddlewares ∧
    isPublicRoute "/api/v1/auth/check-admin" = false ∧
    routeAuthDep "/api/v1/auth/check-admin" = some AuthDep.noAuth ∧
    handleRequest "secret" 0 true "/api/v1/auth/check-admin" none
      ⟨"admin@example.com", "admin", false⟩ []
      = PipelineOutcome.reachesHandler ∧
    authDispatch "secret" 0 "/api/v1/auth/check-admin" none
      = some unauthenticatedResponse ∧
    handleRequest "secret" 0 true "/api/v1/data/items" none
      ⟨"admin@example.com", "admin", false⟩ []
      = PipelineOutcome.response oauth2NotAuthenticatedResponse :=
  ⟨by decide, rfl, rfl, rfl, rfl, rfl⟩

/-- C2: `get_current_admin_user` yields the Forbidden (HTTP 403) outcome
exactly when the identity carries `is_admin = false`, and returns the
identity unchanged when `is_admin = true`; in particular an authenticated
admin identity succeeds. -/
theorem admin_check_correct (u : User) :
    (get_current_admin_user u = AdminOutcome.forbidden ↔ u.is_admin = false) ∧
    (u.is_admin = true → get_current_admin_user u = AdminOutcome.ok u) := by
  unfold get_current_admin_user
  cases h : u.is_admin <;> simp

/-- Witness for C2: a concrete admin identity passes the check unchanged
and a concrete non-admin identity is rejected with Forbidden. -/
theorem admin_check_correct_witness :
    get_current_admin_user ⟨"admin", "admin@example.com", "admin", false, true⟩
      = AdminOutcome.ok ⟨"admin", "admin@example.com", "admin", false, true⟩ ∧
    get_current_admin_user ⟨"u1", "user@example.com", "bob", false, false⟩
      = AdminOutcome.forbidden :=
  ⟨(admin_check_correct _).2 rfl, (admin_check_correct _).1.mpr rfl⟩

/-- C3: every `User` returned by `get_current_user` has `is_admin = false`
and `disabled = false`, regardless of the token claims, the configuration,
and the `is_admin`/`disabled` values stored in the matched user record:
both success branches construct the user through a call that passes only
`id`, `email`, `username` and an `is_active` keyword that is not a declared
field, so the model defaults apply. -/
theorem resolved_identity_flags (t : Token) (secret : String) (now : ℤ)
    (cfg : AdminConfig) (users : List (String × UserRecord)) (u : User)
    (h : get_current_user t secret now cfg users = AuthOutcome.ok u) :
    u.is_admin = false ∧ u.disabled = false := by
  unfold get_current_user at h
  repeat' split at h
  all_goals simp_all [userFromCall]
  all_goals exact ⟨by rw [← h], by rw [← h]⟩

/-- Witness for C3: a concrete successful resolution (the reserved admin
subject, whose stored record has `is_admin = True`) still yields a user
with both flags false. -/
theorem resolved_identity_flags_witness :
    (⟨"admin", "admin@example.com", "admin", false, false⟩ : User).is_admin
        = false ∧
    (⟨"admin", "admin@example.com", "admin", false, false⟩ : User).disabled
        = false :=
  resolved_identity_flags
    ⟨⟨some "admin@example.com", some "admin"⟩, 600, "secret"⟩ "secret" 100
    ⟨"admin@example.com", "admin", false⟩
    [("admin", ⟨some "admin", some "admin@example.com", some "h",
      some false, some true⟩)]
    ⟨"admin", "admin@example.com", "admin", false, false⟩ rfl

/-- C7: on a non-allow-listed path, the three rejection causes of
`AuthMiddleware.dispatch` — no `Authorization` header, a malformed header,
and a token that fails verification (expired or unverifiable) — all
produce the identical response: same status code, same body, same
`WWW-Authenticate` header. -/
theorem uniform_unauthenticated_response (path raw secret : String)
    (now : ℤ) (t : Token) (hpub : isPublicRoute path = false)
    (hdec : jwtDecode t secret now = Except.error ()) :
    authDispatch secret now path none = some unauthenticatedResponse ∧
    authDispatch secret now path (some (AuthHeader.malformed raw))
      = some unauthenticatedResponse ∧
    authDispatch secret now path (some (AuthHeader.bearer t))
      = some unauthenticatedResponse := by
  unfold authDispatch
  simp [hpub, hdec]

/-- Witness for C7: the three causes evaluated on the protected path
`/api/v1/data/users` with an expired token. -/
theorem uniform_unauthenticated_response_witness :
    authDispatch "secret" 1000 "/api/v1/data/users" none
      = some unauthenticatedResponse ∧
    authDispatch "secret" 1000 "/api/v1/data/users"
      (some (AuthHeader.malformed "Basic xyz"))
      = some unauthenticatedResponse ∧
    authDispatch "secret" 1000 "/api/v1/data/users"
      (some (AuthHeader.bearer ⟨⟨some "a", some "u"⟩, 600, "secret"⟩))
      = some unauthenticatedResponse :=
  uniform_unauthenticated_response "/api/v1/data/users" "Basic xyz" "secret"
    1000 ⟨⟨some "a", some "u"⟩, 600, "secret"⟩ rfl rfl

/-- C8: `AsyncFirebase.read` is total (every exception is swallowed inside
the function) and returns the empty mapping both when no data exists at the
path and when the backend fails, so the two situations are
indistinguishable by the return value. -/
theorem read_swallows_failures (st st2 : Store) (path path2 : String)
    (h : st path = none) :
    read st true path = JsonVal.obj [] ∧
    read st2 false path2 = JsonVal.obj [] := by
  constructor
  · unfold read
    simp [h]
  · rfl

/-- Witness for C8: a store with no data at `users` and a failed backend
both read back as the empty mapping. -/
theorem read_swallows_failures_witness :
    read (fun _ => none) true "users" = JsonVal.obj [] ∧
    read (fun _ => some (JsonVal.str "x")) false "users" = JsonVal.obj [] :=
  read_swallows_failures (fun _ => none) (fun _ => some (JsonVal.str "x"))
    "users" "users" rfl

/-- Counterexample to C9 as stated: with the store initially empty at the
path and the empty mapping as the default value, both calls to
`ensure_default_entry` perform a write (the value written by the first
call is falsy, so the second call's `if not data` check passes again);
the two calls perform two writes, not exactly one. -/
theorem ensure_default_empty_value_writes_twice :
    (ensure_default_entry (fun _ => none) true "users" (JsonVal.obj [])).2.2
      = 1 ∧
    (ensure_default_entry
      (ensure_default_entry (fun _ => none) true "users"
        (JsonVal.obj [])).2.1
      true "users" (JsonVal.obj [])).2.2 = 1 ∧
    (ensure_default_entry (fun _ => none) true "users" (JsonVal.obj [])).2.2
        +
      (ensure_default_entry
        (ensure_default_entry (fun _ => none) true "users"
          (JsonVal.obj [])).2.1
        true "users" (JsonVal.obj [])).2.2 ≠ 1 :=
  ⟨rfl, rfl, by decide⟩

/-- C9 (amended): for a truthy (non-empty) default value and a healthy
backend, `ensure_default_entry` is idempotent as claimed: with the store
initially empty at the path, the first call performs exactly one write,
the second call performs no write, and the stored value after the second
call is the value written by the first. -/
theorem ensure_default_idempotent (st : Store) (path : String)
    (v : JsonVal) (hempty : st path = none) (hv : v.isTruthy = true) :
    (ensure_default_entry st true path v).2.2 = 1 ∧
    (ensure_default_entry (ensure_default_entry st true path v).2.1
      true path v).2.2 = 0 ∧
    (ensure_default_entry (ensure_default_entry st true path v).2.1
      true path v).2.1 path = some v := by
  have h1 : ensure_default_entry st true path v = (true, st.setAt path v, 1) := by
    unfold ensure_default_entry read write
    simp [hempty, JsonVal.isTruthy]
  have hread : read (st.setAt path v) true path = v := by
    unfold read Store.setAt
    simp
  have h2 : ensure_default_entry (st.setAt path v) true path v
      = (true, st.setAt path v, 0) := by
    unfold ensure_default_entry
    rw [hread]
    simp [hv]
  rw [h1]
  simp only [h2]
  simp [Store.setAt]

/-- Witness for the amended C9: a concrete non-empty default entry at
`users` on an initially empty store. -/
theorem ensure_default_idempotent_witness :
    (ensure_default_entry (fun _ => none) true "users"
      (JsonVal.obj [("k", JsonVal.str "x")])).2.2 = 1 ∧
    (ensure_default_entry
      (ensure_default_entry (fun _ => none) true "users"
        (JsonVal.obj [("k", JsonVal.str "x")])).2.1
      true "users" (JsonVal.obj [("k", JsonVal.str "x")])).2.2 = 0 ∧
    (ensure_default_entry
      (ensure_default_entry (fun _ => none) true "users"
        (JsonVal.obj [("k", JsonVal.str "x")])).2.1
      true "users" (JsonVal.obj [("k", JsonVal.str "x")])).2.1 "users"
      = some (JsonVal.obj [("k", JsonVal.str "x")]) :=
  ensure_default_idempotent (fun _ => none) "users"
    (JsonVal.obj [("k", JsonVal.str "x")]) rfl rfl

/-- Once the client is initialized, further first-use steps change
nothing: the `if not firebase_admin._apps and not self._initialized`
guard fails for every later task. -/
theorem runFirstUse_initialized :
    ∀ l : List ℕ, runFirstUse l ⟨1, true⟩ = ⟨1, true⟩
  | [] => rfl
  | _ :: rest => runFirstUse_initialized rest

/-- C10: under the cooperative scheduling model of the application, the
body of `_initialize_firebase` is a single atomic segment per task (no
genuine suspension point lies between its check and its connection
establishment), so for every non-empty schedule of concurrent first-use
tasks exactly one connection-initialization sequence executes and the
final state seen by all callers is the single fully-initialized client. -/
theorem store_init_once (sched : List ℕ) (h : sched ≠ []) :
    runFirstUse sched ⟨0, false⟩ = ⟨1, true⟩ := by
  cases sched with
  | nil => exact absurd rfl h
  | cons a rest =>
    show runFirstUse rest (initFirebaseStep ⟨0, false⟩) = ⟨1, true⟩
    exact runFirstUse_initialized rest

/-- Witness for C10: four interleaved first-use tasks yield exactly one
initialization. -/
theorem store_init_once_witness :
    runFirstUse [0, 1, 2, 0] ⟨0, false⟩ = ⟨1, true⟩ :=
  store_init_once [0, 1, 2, 0] (by decide)

/-- One `is_allowed` step keeps the bucket invariant `0 ≤ tokens ≤ rate`
and stamps the current time as `last_refill`. -/
theorem isAllowedStep_inv (rate per : ℚ) (b : Bucket) (now : ℚ)
    (hrate : 0 ≤ rate) (hper : 0 < per) (h0 : 0 ≤ b.tokens)
    (hclock : b.lastRefill ≤ now) :
    0 ≤ (isAllowedStep rate per (some b) now).2.tokens ∧
    (isAllowedStep rate per (some b) now).2.tokens ≤ rate ∧
    (isAllowedStep rate per (some b) now).2.lastRefill = now := by
  have hratio : 0 ≤ rate / per := div_nonneg hrate hper.le
  have hamt : 0 ≤ refillAmount rate per (now - b.lastRefill) :=
    mul_nonneg (sub_nonneg.mpr hclock) hratio
  have hre0 : 0 ≤ (refillBucket rate per b now).tokens :=
    le_min hrate (add_nonneg h0 hamt)
  have hre1 : (refillBucket rate per b now).tokens ≤ rate :=
    min_le_left _ _
  have hstep : isAllowedStep rate per (some b) now =
      if 1 ≤ (refillBucket rate per b now).tokens then
        (true, ⟨(refillBucket rate per b now).tokens - 1,
          (refillBucket rate per b now).lastRefill⟩)
      else (false, refillBucket rate per b now) := rfl
  rw [hstep]
  split_ifs with hc
  · refine ⟨?_, ?_, rfl⟩
    · show 0 ≤ (refillBucket rate per b now).tokens - 1
      linarith
    · show (refillBucket rate per b now).tokens - 1 ≤ rate
      linarith
  · exact ⟨hre0, hre1, rfl⟩

/-- Every sequence of `is_allowed` calls at non-decreasing clock values
keeps the bucket invariant. -/
theorem runTimed_inv (rate per : ℚ) (hrate : 0 ≤ rate) (hper : 0 < per) :
    ∀ (times : List ℚ) (b : Bucket), 0 ≤ b.tokens → b.tokens ≤ rate →
      List.Chain (· ≤ ·) b.lastRefill times →
      0 ≤ (runTimed rate per times b).tokens ∧
      (runTimed rate per times b).tokens ≤ rate := by
  intro times
  induction times with
  | nil =>
    intro b h0 h1 _
    exact ⟨h0, h1⟩
  | cons t rest ih =>
    intro b h0 h1 hch
    cases hch with
    | cons hbt hrest =>
      have hstep := isAllowedStep_inv rate per b t hrate hper h0 hbt
      show 0 ≤ (runTimed rate per rest
          (isAllowedStep rate per (some b) t).2).tokens ∧ _
      apply ih
      · exact hstep.1
      · exact hstep.2.1
      · rw [hstep.2.2]
        exact hrest

/-- C4: for any key, starting from any bucket satisfying the invariant
`0 ≤ tokens ≤ rate`, the invariant holds after the refill sub-step, after
a full `is_allowed` step, and after every sequence of `is_allowed` calls
at non-decreasing clock values (so after every refill and consume step of
the sequence); and the refill amount is monotonically non-decreasing in
the elapsed time.  Hypotheses: non-negative configured rate, positive
period, and a non-decreasing clock. -/
theorem bucket_invariant (rate per : ℚ) (b : Bucket) (now : ℚ)
    (hrate : 0 ≤ rate) (hper : 0 < per) (h0 : 0 ≤ b.tokens)
    (h1 : b.tokens ≤ rate) (hclock : b.lastRefill ≤ now) :
    (0 ≤ (refillBucket rate per b now).tokens ∧
      (refillBucket rate per b now).tokens ≤ rate) ∧
    (0 ≤ (isAllowedStep rate per (some b) now).2.tokens ∧
      (isAllowedStep rate per (some b) now).2.tokens ≤ rate) ∧
    (∀ times : List ℚ, List.Chain (· ≤ ·) b.lastRefill times →
      0 ≤ (runTimed rate per times b).tokens ∧
      (runTimed rate per times b).tokens ≤ rate) ∧
    (∀ e1 e2 : ℚ, e1 ≤ e2 →
      refillAmount rate per e1 ≤ refillAmount rate per e2) := by
  have hratio : 0 ≤ rate / per := div_nonneg hrate hper.le
  have hamt : 0 ≤ refillAmount rate per (now - b.lastRefill) :=
    mul_nonneg (sub_nonneg.mpr hclock) hratio
  refine ⟨⟨le_min hrate (add_nonneg h0 hamt), min_le_left _ _⟩, ?_, ?_, ?_⟩
  · have hstep := isAllowedStep_inv rate per b now hrate hper h0 hclock
    exact ⟨hstep.1, hstep.2.1⟩
  · intro times hch
    exact runTimed_inv rate per hrate hper times b h0 h1 hch
  · intro e1 e2 h12
    exact mul_le_mul_of_nonneg_right h12 hratio

/-- Witness for C4: a concrete bucket mid-window keeps the invariant. -/
theorem bucket_invariant_witness :
    0 ≤ (refillBucket 2 1 ⟨1, 0⟩ 3).tokens ∧
    (refillBucket 2 1 ⟨1, 0⟩ 3).tokens ≤ 2 :=
  (bucket_invariant 2 1 ⟨1, 0⟩ 3 (by norm_num) (by norm_num) (by norm_num)
    (by norm_num) (by norm_num)).1

/-- Refilling with no elapsed time adds nothing: the bucket keeps its
(possibly fractional) token count, capped at the rate. -/
theorem refillBucket_no_elapsed (rate per : ℚ) (b : Bucket) (now : ℚ)
    (h : b.lastRefill = now) :
    refillBucket rate per b now = ⟨min rate b.tokens, now⟩ := by
  unfold refillBucket refillAmount
  rw [h]
  simp

/-- An instantaneous burst against a bucket holding exactly `m` whole
tokens (with `m ≤ rate`) is allowed `m` times and denied on call
`m + 1`. -/
theorem runCalls_replicate (rate per now : ℚ) (m : ℕ) :
    ∀ b : Bucket, b.lastRefill = now → b.tokens = (m : ℚ) →
      b.tokens ≤ rate →
      runCalls rate per now (m + 1) (some b) =
        List.replicate m true ++ [false] := by
  induction m with
  | zero =>
    intro b hlr htok hle
    have h0 : b.tokens = 0 := by exact_mod_cast htok
    show (isAllowedStep rate per (some b) now).1 ::
      runCalls rate per now 0 (some (isAllowedStep rate per (some b) now).2)
      = [false]
    have hstep : isAllowedStep rate per (some b) now =
        if 1 ≤ (refillBucket rate per b now).tokens then
          (true, ⟨(refillBucket rate per b now).tokens - 1,
            (refillBucket rate per b now).lastRefill⟩)
        else (false, refillBucket rate per b now) := rfl
    rw [hstep, refillBucket_no_elapsed rate per b now hlr]
    have : min rate b.tokens = b.tokens := min_eq_right hle
    rw [show (⟨min rate b.tokens, now⟩ : Bucket).tokens
          = min rate b.tokens from rfl, this, h0]
    norm_num [runCalls]
  | succ k ih =>
    intro b hlr htok hle
    have h1le : (1 : ℚ) ≤ b.tokens := by
      rw [htok]
      exact_mod_cast Nat.succ_le_succ (Nat.zero_le k)
    show (isAllowedStep rate per (some b) now).1 ::
      runCalls rate per now (k + 1)
        (some (isAllowedStep rate per (some b) now).2)
      = List.replicate (k + 1) true ++ [false]
    have hstep : isAllowedStep rate per (some b) now =
        if 1 ≤ (refillBucket rate per b now).tokens then
          (true, ⟨(refillBucket rate per b now).tokens - 1,
            (refillBucket rate per b now).lastRefill⟩)
        else (false, refillBucket rate per b now) := rfl
    rw [hstep, refillBucket_no_elapsed rate per b now hlr]
    have hmin : min rate b.tokens = b.tokens := min_eq_right hle
    have hcond : (1 : ℚ) ≤ (⟨min rate b.tokens, now⟩ : Bucket).tokens := by
      rw [show (⟨min rate b.tokens, now⟩ : Bucket).tokens
            = min rate b.tokens from rfl, hmin]
      exact h1le
    rw [if_pos hcond]
    have hrec := ih ⟨min rate b.tokens - 1, now⟩ rfl
      (by
        show min rate b.tokens - 1 = (k : ℚ)
        rw [hmin, htok]
        push_cast
        ring)
      (by
        show min rate b.tokens - 1 ≤ rate
        rw [hmin]
        linarith)
    rw [show ((true, ⟨(⟨min rate b.tokens, now⟩ : Bucket).tokens - 1, now⟩)
          : Bool × Bucket).2 = ⟨min rate b.tokens - 1, now⟩ from rfl]
    rw [hrec, List.replicate_succ]
    rfl

/-- C5: an unseen key gets a full bucket (`tokens = rate`); a burst of
`rate + 1` instantaneous `is_allowed` calls for it is allowed on the first
`rate` calls and denied exactly on the last; and a same-instant
`is_allowed` step on any bucket consumes exactly when at least one whole
token is present, subtracting exactly one and otherwise preserving the
(possibly fractional) token count. -/
theorem burst_denied_on_last (rate : ℕ) (per now : ℚ) :
    getTokens (rate : ℚ) none now = ⟨(rate : ℚ), now⟩ ∧
    runCalls (rate : ℚ) per now (rate + 1) none =
      List.replicate rate true ++ [false] ∧
    (∀ b : Bucket, b.lastRefill = now → b.tokens ≤ (rate : ℚ) →
      ((isAllowedStep (rate : ℚ) per (some b) now).1 = true ↔
        1 ≤ b.tokens) ∧
      (1 ≤ b.tokens →
        (isAllowedStep (rate : ℚ) per (some b) now).2.tokens
          = b.tokens - 1) ∧
      (b.tokens < 1 →
        (isAllowedStep (rate : ℚ) per (some b) now).2.tokens
          = b.tokens)) := by
  refine ⟨rfl, ?_, ?_⟩
  · have hnone : runCalls (rate : ℚ) per now (rate + 1) none =
        runCalls (rate : ℚ) per now (rate + 1)
          (some (⟨(rate : ℚ), now⟩ : Bucket)) := rfl
    rw [hnone]
    exact runCalls_replicate (rate : ℚ) per now rate ⟨(rate : ℚ), now⟩
      rfl rfl le_rfl
  · intro b hlr hle
    have hstep : isAllowedStep (rate : ℚ) per (some b) now =
        if 1 ≤ (refillBucket (rate : ℚ) per b now).tokens then
          (true, ⟨(refillBucket (rate : ℚ) per b now).tokens - 1,
            (refillBucket (rate : ℚ) per b now).lastRefill⟩)
        else (false, refillBucket (rate : ℚ) per b now) := rfl
    rw [hstep, refillBucket_no_elapsed (rate : ℚ) per b now hlr]
    have hmin : min (rate : ℚ) b.tokens = b.tokens := min_eq_right hle
    have htk : (⟨min (rate : ℚ) b.tokens, now⟩ : Bucket).tokens
        = b.tokens := by
      rw [show (⟨min (rate : ℚ) b.tokens, now⟩ : Bucket).tokens
            = min (rate : ℚ) b.tokens from rfl, hmin]
    refine ⟨?_, ?_, ?_⟩
    · split_ifs with hc
      · rw [htk] at hc
        simp [hc]
      · rw [htk] at hc
        simp [hc]
    · intro h1
      have hc : (1 : ℚ) ≤ (⟨min (rate : ℚ) b.tokens, now⟩ : Bucket).tokens := by
        rw [htk]
        exact h1
      rw [if_pos hc]
      show min (rate : ℚ) b.tokens - 1 = b.tokens - 1
      rw [hmin]
    · intro h1
      rw [if_neg (by rw [htk]; exact not_le.mpr h1)]
      exact htk

/-- Witness for C5: with `rate = 2`, a fresh key is allowed twice and
denied on the third instantaneous call. -/
theorem burst_denied_on_last_witness :
    runCalls ((2 : ℕ) : ℚ) 1 0 (2 + 1) none =
      List.replicate 2 true ++ [false] :=
  (burst_denied_on_last 2 1 0).2.1

/-- C6: a token minted by `create_access_token` verifies successfully (and
yields the encoded claims together with the expiry) at every time strictly
before its expiry timestamp, and at every time strictly after its expiry
the identical token fails `jwt.decode` and `get_current_user` yields the
Unauthenticated (401) outcome, for every store content and
configuration. -/
theorem token_expiry (data : TokenData) (secret : String) (now0 : ℤ)
    (delta : Option ℤ) (t : ℤ) (cfg : AdminConfig)
    (users : List (String × UserRecord)) :
    (t < (create_access_token data now0 delta secret).exp →
      jwtDecode (create_access_token data now0 delta secret) secret t =
        Except.ok (data, (create_access_token data now0 delta secret).exp)) ∧
    ((create_access_token data now0 delta secret).exp < t →
      jwtDecode (create_access_token data now0 delta secret) secret t =
          Except.error () ∧
      get_current_user (create_access_token data now0 delta secret) secret t
          cfg users = AuthOutcome.unauthenticated) := by
  constructor
  · intro hlt
    unfold jwtDecode
    split_ifs with hs he
    · omega
    · rfl
    · exact absurd rfl hs
  · intro hgt
    have hdec : jwtDecode (create_access_token data now0 delta secret)
        secret t = Except.error () := by
      have hs : (create_access_token data now0 delta secret).signedWith
          = secret := rfl
      unfold jwtDecode
      rw [if_pos hs, if_pos hgt]
    refine ⟨hdec, ?_⟩
    unfold get_current_user
    rw [hdec]

/-- Witness for C6: a token minted at time 0 with the default 10-minute
ttl verifies at time 100 and is rejected at time 700. -/
theorem token_expiry_witness :
    jwtDecode (create_access_token ⟨some "a", some "u1"⟩ 0 none "s") "s" 100
      = Except.ok ((⟨some "a", some "u1"⟩ : TokenData),
          (create_access_token ⟨some "a", some "u1"⟩ 0 none "s").exp) ∧
    get_current_user (create_access_token ⟨some "a", some "u1"⟩ 0 none "s")
      "s" 700 ⟨"e", "n", false⟩ [] = AuthOutcome.unauthenticated :=
  ⟨(token_expiry ⟨some "a", some "u1"⟩ "s" 0 none 100 ⟨"e", "n", false⟩
      []).1 (by decide),
   ((token_expiry ⟨some "a", some "u1"⟩ "s" 0 none 700 ⟨"e", "n", false⟩
      []).2 (by decide)).2⟩

end FirebaseAPI
